import Mathlib

/-!
Verification development for the portfolio optimization engine of the
py-quant-fin repository.  The Python sources are shallowly embedded:
numpy/pandas values become rational vectors and matrices (`List ℚ`,
`List (List ℚ)`), Python dictionaries with optional keys become structures
with `Option` fields, exceptions become an `Except` error channel, and the
external cvxopt solver is an oracle argument.  All definitions follow
`src/quantfin/portfolio_selection/portfolio_optimization.py`,
`.../portfolio_optimization/objective_functions.py` and
`.../portfolio.py` unless a comment says otherwise.
-/

namespace QuantFin

/-- The `Constraint` enum of `portfolio_optimization.py` (lines 25-29). -/
inductive Constraint where
  | noShortselling
  | maxInstrWeight
  deriving DecidableEq, BEq, Repr

/-- A numpy 2-d array / pandas DataFrame body: a list of rows of rationals. -/
abbrev Mat := List (List ℚ)

/-- `np.zeros(n)` as a vector. -/
def zerosV (n : Nat) : List ℚ := List.replicate n 0

/-- `np.ones(n)` as a vector. -/
def onesV (n : Nat) : List ℚ := List.replicate n 1

/-- `np.zeros((r, c))`. -/
def zerosM (r c : Nat) : Mat := List.replicate r (zerosV c)

/-- `np.eye(n)`. -/
def eyeM (n : Nat) : Mat :=
  (List.range n).map (fun i => (List.range n).map (fun j => if j = i then 1 else 0))

/-- Elementwise negation of a matrix. -/
def negM (M : Mat) : Mat := M.map (fun r => r.map (fun x => -x))

/-- Scalar multiple of a matrix. -/
def smulM (c : ℚ) (M : Mat) : Mat := M.map (fun r => r.map (fun x => c * x))

/-- `np.concatenate(-, axis=1)` of two row-aligned blocks. -/
def hstack2 (A B : Mat) : Mat := List.zipWith (fun r s => r ++ s) A B

/-- `np.concatenate(-, axis=1)` of three row-aligned blocks. -/
def hstack3 (A B C : Mat) : Mat := hstack2 (hstack2 A B) C

/-- Column `j` of a row-major matrix (a DataFrame column). -/
def colV (rows : Mat) (j : Nat) : List ℚ := rows.map (fun r => r.getD j 0)

/-- Mean of column `j` (pandas `DataFrame.mean()` entry). -/
def colMean (rows : Mat) (j : Nat) : ℚ := (colV rows j).sum / (rows.length : ℚ)

/-- One entry of the pandas sample covariance (`DataFrame.cov()`, ddof = 1). -/
def covEntry (rows : Mat) (i j : Nat) : ℚ :=
  (rows.map (fun r => (r.getD i 0 - colMean rows i) * (r.getD j 0 - colMean rows j))).sum
    / ((rows.length : ℚ) - 1)

/-- `DataFrame.cov().values` for a frame with `nCols` columns. -/
def covMat (nCols : Nat) (rows : Mat) : Mat :=
  (List.range nCols).map (fun i => (List.range nCols).map (fun j => covEntry rows i j))

/-- The rows of a DataFrame with `nCols` columns as a rectangular matrix
(`DataFrame.values`). -/
def dfRows (nCols : Nat) (rows : Mat) : Mat :=
  rows.map (fun r => (List.range nCols).map (fun j => r.getD j 0))

/-- `returns - mean_mat` where `mean_mat = np.tile(returns.mean(), (T, 1))`
(`MeanMAD._compute_constraints`, lines 299-301). -/
def devRows (nCols : Nat) (rows : Mat) : Mat :=
  rows.map (fun r => (List.range nCols).map (fun j => r.getD j 0 - colMean rows j))

/-- An `InvestmentUniverse` as `compute_optimal_portfolio` consumes it
(`investment_universe.py`): a returns DataFrame (named columns plus rows of
observations) and the asset set.  `self.returns` is injected/cached data here.
`self.assets` is a Python `set` rebuilt from the ticker set by `get_assets`
(lines 136-176); iterating a set yields its elements in an order that is not
specified to match the returns column order, so the realized iteration order
is carried explicitly as `assetsIter`. -/
structure InvestmentUniverse where
  retColumns : List String
  returnsRows : Mat
  assetsIter : List String
  deriving DecidableEq, Repr

/-- `num_ret_assets = len(self.returns.columns)` (line 310). -/
def numRetAssets (u : InvestmentUniverse) : Nat := u.retColumns.length

/-- `num_obs_returns = len(self.returns.index)` (line 318). -/
def numObsReturns (u : InvestmentUniverse) : Nat := u.returnsRows.length

/-- The four classes of the `OptimizationModel` hierarchy in
`portfolio_optimization.py`. -/
inductive ModelKind where
  | base
  | meanVariance
  | meanMAD
  | meanCVaR
  deriving DecidableEq, Repr

/-- `self.__class__.__name__`. -/
def modelClassName : ModelKind → String
  | .base => "OptimizationModel"
  | .meanVariance => "MeanVariance"
  | .meanMAD => "MeanMAD"
  | .meanCVaR => "MeanCVaR"

/-- `MeanCVaR.__init__` default `confidence_level: float = 0.05` (line 364). -/
def defaultConfidenceLevel : ℚ := 1 / 20

/-- The objective dictionary built by `_compute_objective`: key `"Linear"` is
always present (stored as the flat column vector), key `"Quadratic"` only for
the base class and `MeanVariance`. -/
structure ObjectiveDict where
  quadratic : Option Mat
  linear : List ℚ
  deriving DecidableEq, Repr

/-- `_compute_objective` of each class (lines 81-94, 237-243, 268-288,
369-391).  `confidenceLevel` is `self.confidence_level`, used only by
`MeanCVaR`. -/
def computeObjective (kind : ModelKind) (confidenceLevel : ℚ)
    (u : InvestmentUniverse) : ObjectiveDict :=
  let n := numRetAssets u
  let T := numObsReturns u
  match kind with
  | .base =>
      { quadratic := some (zerosM n n), linear := zerosV n }
  | .meanVariance =>
      { quadratic := some (smulM 2 (covMat n u.returnsRows)), linear := zerosV n }
  | .meanMAD =>
      { quadratic := none,
        linear := zerosV n ++ List.replicate T ((1 : ℚ) / (T : ℚ)) }
  | .meanCVaR =>
      { quadratic := none,
        linear := zerosV n ++ List.replicate T ((1 : ℚ) / (confidenceLevel * (T : ℚ)))
          ++ [1] }

/-- The constraints dictionary assembled by `_compute_constraints`: keys
`"A_budget"`/`"b_budget"` are always written (lines 115-118), keys
`"G_inequality"`/`"h_inequality"` only on some paths. -/
structure ConstraintsDict where
  A_budget : Mat
  b_budget : List ℚ
  G_inequality : Option Mat := none
  h_inequality : Option (List ℚ) := none
  deriving DecidableEq, Repr

/-- An `OptimizationModel` instance.  `constraints` is
`Optional[Set[Constraint]]` (line 44); the stored list models the set, so
element order and duplication are immaterial everywhere it is read.
`constraintsDict` models the `self.constraints_dict` attribute that
`MeanMAD._compute_constraints` writes at line 345 and nothing ever reads. -/
structure OptModel where
  kind : ModelKind
  constraints : Option (List Constraint)
  confidenceLevel : ℚ := defaultConfidenceLevel
  constraintsDict : Option ConstraintsDict := none

/-- Truthiness of `self.constraints` in `if self.constraints:` (line 119):
`None` and the empty set are falsy. -/
def constraintsTruthy : Option (List Constraint) → Bool
  | none => false
  | some l => !l.isEmpty

/-- `Constraint.NO_SHORTSELLING in self.constraints` (on a non-`None` set). -/
def hasNoShort (c : Option (List Constraint)) : Bool :=
  (c.getD []).contains .noShortselling

/-- The base `OptimizationModel._compute_constraints` (lines 96-142).  The
length of the `"Linear"` objective is obtained through dynamic dispatch on
`self._compute_objective`, hence from the model rather than the class. -/
def computeConstraintsBase (m : OptModel) (u : InvestmentUniverse)
    (cashPct : ℚ) : ConstraintsDict :=
  let n := numRetAssets u
  let dim := (computeObjective m.kind m.confidenceLevel u).linear.length
  let A := [onesV n ++ zerosV (dim - n)]
  let b := [1 - cashPct]
  if constraintsTruthy m.constraints && hasNoShort m.constraints then
    { A_budget := A, b_budget := b,
      G_inequality := some (hstack2 (negM (eyeM n)) (zerosM n (dim - n))),
      h_inequality := some (zerosV n) }
  else
    { A_budget := A, b_budget := b }

/-- The dictionary returned by `_compute_constraints` of each class (base
lines 96-142, `MeanVariance` lines 245-262, `MeanMAD` lines 290-355,
`MeanCVaR` lines 393-447). -/
def computeConstraintsDict (m : OptModel) (u : InvestmentUniverse)
    (cashPct : ℚ) : ConstraintsDict :=
  let n := numRetAssets u
  let T := numObsReturns u
  match m.kind with
  | .base => computeConstraintsBase m u cashPct
  | .meanVariance =>
      let d := computeConstraintsBase m u cashPct
      let d := { d with A_budget := [onesV n] }
      if constraintsTruthy m.constraints && hasNoShort m.constraints then
        { d with G_inequality := some (negM (eyeM n)) }
      else d
  | .meanMAD =>
      let d := computeConstraintsBase m u cashPct
      let dev := devRows n u.returnsRows
      let madGe := hstack2 dev (negM (eyeM T))
      let madLe := hstack2 (negM dev) (negM (eyeM T))
      let posAbsDev := hstack2 (zerosM T n) (negM (eyeM T))
      let hMad := zerosV (3 * T)
      if constraintsTruthy m.constraints then
        if hasNoShort m.constraints then
          { d with
            G_inequality := some (madGe ++ madLe ++ posAbsDev ++ d.G_inequality.getD []),
            h_inequality := some (hMad ++ d.h_inequality.getD []) }
        else d
      else
        { d with
          G_inequality := some (madGe ++ madLe ++ posAbsDev),
          h_inequality := some hMad }
  | .meanCVaR =>
      let d := computeConstraintsBase m u cashPct
      let cvarGe := hstack3 (negM (dfRows n u.returnsRows)) (negM (eyeM T))
        (List.replicate T [(-1 : ℚ)])
      let posDevFromZeta := hstack3 (zerosM T n) (negM (eyeM T))
        (List.replicate T [(0 : ℚ)])
      let hCvar := zerosV (2 * T)
      if constraintsTruthy m.constraints then
        if hasNoShort m.constraints then
          { d with
            G_inequality := some (cvarGe ++ posDevFromZeta ++ d.G_inequality.getD []),
            h_inequality := some (hCvar ++ d.h_inequality.getD []) }
        else d
      else
        { d with
          G_inequality := some (cvarGe ++ posDevFromZeta),
          h_inequality := some hCvar }

/-- The model state after `_compute_constraints`: only `MeanMAD` stores the
assembled dictionary on `self.constraints_dict` (line 345), and only inside
its truthy no-shortselling branch; every other path leaves the model
untouched. -/
def constraintsStateAfter (m : OptModel) (u : InvestmentUniverse)
    (cashPct : ℚ) : OptModel :=
  match m.kind with
  | .meanMAD =>
      if constraintsTruthy m.constraints then
        if hasNoShort m.constraints then
          { m with constraintsDict := some (computeConstraintsDict m u cashPct) }
        else m
      else m
  | _ => m

/-- `_compute_constraints` with its side effect on the model. -/
def computeConstraintsS (m : OptModel) (u : InvestmentUniverse)
    (cashPct : ℚ) : ConstraintsDict × OptModel :=
  (computeConstraintsDict m u cashPct, constraintsStateAfter m u cashPct)

/-- The argument record of one `cvxopt.solvers.qp`/`lp` invocation: `P` is
present for the qp form, `G`/`h` only when passed. -/
structure SolverArgs where
  P : Option Mat
  q : List ℚ
  G : Option Mat
  h : Option (List ℚ)
  A : Mat
  b : List ℚ
  deriving DecidableEq, Repr

/-- What a cvxopt solver call returns: a status string and the solution
vector `solution["x"]`. -/
structure Solution where
  status : String
  x : List ℚ
  deriving DecidableEq, Repr

/-- The external convex solver, treated as a deterministic black box. -/
abbrev Solver := SolverArgs → Solution

/-- Python exceptions that the embedded code can surface.
`infeasibleOrUnboundedError` is the error class named by the specification
taxonomy; no class of that name is defined or raised anywhere in the source,
so no embedded function ever produces it. -/
inductive PyErr where
  | keyError (key : String)
  | assertionError (msg : String)
  | typeError (msg : String)
  | valueError (msg : String)
  | infeasibleOrUnboundedError
  deriving DecidableEq, Repr

/-- Weight post-processing at lines 223-225: `if weight > 0 and weight < 1e-4:
opt_holdings[asset] = 0.0`. -/
def snapWeight (w : ℚ) : ℚ :=
  if 0 < w ∧ w < 1 / 10000 then 0 else w

/-- Lines 215-225: slice the first `num_ret_assets` entries of the solution
vector, pair them with the iteration of `investment_universe.assets` (each
element re-wrapped as a fresh `Stock`, keyed here by its ticker), and apply
the small-positive-weight correction to each stored weight. -/
def buildHoldings (u : InvestmentUniverse) (x : List ℚ) : List (String × ℚ) :=
  let weights := x.take (numRetAssets u)
  (List.zip u.assetsIter weights).map (fun p => (p.1, snapWeight p.2))

/-- The result object of a successful solve. -/
structure OptimalPortfolioPy where
  name : String
  holdings : List (String × ℚ)
  assetsReturns : Mat
  deriving DecidableEq, Repr

/-- The constructor call at lines 226-231:
`OptimalPortfolio(name=..., holdings=..., assets_returns=...,
optimization_model_name=self.__class__.__name__)`.
`OptimalPortfolio.__init__` (`portfolio.py` lines 176-188) accepts only
`name`, `long_only`, `currency`, `holdings`, `assets_returns`,
`objective_function` and `start_holding_date`, so Python rejects the call
with a `TypeError` for the unexpected keyword argument. -/
def optimalPortfolioCall (_name : String) (_holdings : List (String × ℚ))
    (_assetsReturns : Mat) : Except PyErr OptimalPortfolioPy :=
  .error (.typeError "unexpected keyword argument optimization_model_name")

/-- The arguments of the unconditional second solver invocation (lines
191-209), once `G_inequality`/`h_inequality` have been read successfully. -/
def checkedCallArgs (m : OptModel) (u : InvestmentUniverse) (cashPct : ℚ)
    (G : Mat) (h : List ℚ) : SolverArgs :=
  { P := (computeObjective m.kind m.confidenceLevel u).quadratic,
    q := (computeObjective m.kind m.confidenceLevel u).linear,
    G := some G, h := some h,
    A := (computeConstraintsS m u cashPct).1.A_budget,
    b := (computeConstraintsS m u cashPct).1.b_budget }

/-- `OptimizationModel.compute_optimal_portfolio` (lines 144-231), paired
with the model state after the call.  Control flow of the source:
the first solver invocation (lines 171-190) runs only when
`self.constraints is None or NO_SHORTSELLING not in self.constraints`; its
result is bound to `solution` but unconditionally overwritten by the second
block (lines 191-209), which reads `constraints_matrices["G_inequality"]` and
`["h_inequality"]` — a `KeyError` when those keys were never written.  The
assert at lines 212-214 then gates on `solution["status"] == "optimal"`. -/
def computeOptimalPortfolioS (m : OptModel) (u : InvestmentUniverse)
    (cashPct : ℚ) (solver : Solver) :
    Except PyErr OptimalPortfolioPy × OptModel :=
  let obj := computeObjective m.kind m.confidenceLevel u
  let cs := computeConstraintsS m u cashPct
  let cons := cs.1
  let firstArgs : SolverArgs := {
    P := obj.quadratic, q := obj.linear, G := none, h := none,
    A := cons.A_budget, b := cons.b_budget }
  let _solutionFirst : Option Solution :=
    if m.constraints = none ∨ ¬ hasNoShort m.constraints then
      some (solver firstArgs)
    else none
  let result : Except PyErr OptimalPortfolioPy :=
    match cons.G_inequality, cons.h_inequality with
    | some G, some h =>
        let sol := solver (checkedCallArgs m u cashPct G h)
        if sol.status = "optimal" then
          optimalPortfolioCall (modelClassName m.kind ++ " Portfolio")
            (buildHoldings u sol.x) u.returnsRows
        else
          .error (.assertionError "The status of the solution is not optimal!")
    | _, _ => .error (.keyError "G_inequality")
  (result, cs.2)

/-- An `OptimizationProblem` (lines 450-468): one model bound to one
universe. -/
structure OptimizationProblemPy where
  optimizationModel : OptModel
  investmentUniverse : InvestmentUniverse

/-- `OptimizationProblem.solve` (lines 464-468): delegates to
`compute_optimal_portfolio` passing only the universe, so `cash_pct` keeps
its default `0.0`.  The pair carries the problem state after the call. -/
def solveS (p : OptimizationProblemPy) (solver : Solver) :
    Except PyErr OptimalPortfolioPy × OptimizationProblemPy :=
  let r := computeOptimalPortfolioS p.optimizationModel p.investmentUniverse 0 solver
  (r.1, { p with optimizationModel := r.2 })

/-- A key of a Python holdings dictionary. `Asset`/`Stock` define neither
`__eq__` nor `__hash__`, so stocks compare by object identity, modeled by an
object id; `Cash` is a dataclass whose generated equality compares the
`currency` field (`assets.py` lines 14-18). -/
inductive PKey where
  | stock (ticker : String) (oid : Nat)
  | cash (currency : String)
  deriving DecidableEq, Repr

/-- `sum(self.holdings.values())`. -/
def holdingsSum (h : List (PKey × ℚ)) : ℚ := (h.map Prod.snd).sum

/-- `cash in self.holdings` membership test. -/
def hasKey (h : List (PKey × ℚ)) (k : PKey) : Bool :=
  h.any (fun p => p.1 = k)

/-- Hashability of a holdings-dictionary key. `Asset`/`Stock` define neither
`__eq__` nor `__hash__` and keep default object-identity hashing; `Cash` is
a plain (non-frozen, `eq=True`) dataclass (`assets.py` lines 14-18), for
which the dataclass machinery sets `__hash__ = None`, so hashing a `Cash`
instance raises `TypeError: unhashable type: 'Cash'`. -/
def isHashable : PKey → Bool
  | .stock _ _ => true
  | .cash _ => false

/-- Hashing a key, as Python performs it when the key is inserted into a
dictionary (`{Cash(...): 1.0}`, `portfolio.py` line 28) or probed against
one (`cash not in self.holdings`, line 31). -/
def hashKey (k : PKey) : Except PyErr PKey :=
  if isHashable k then .ok k else .error (.typeError "unhashable type: Cash")

/-- `Portfolio.__init__` (`portfolio.py` lines 17-38), restricted to the
holdings logic.  Line 28 `self.holdings = holdings or
{assets.Cash(currency=self.currency): 1.0}` builds the default dictionary
when the argument is falsy, hashing its `Cash` key; line 31
`if cash not in self.holdings:` hashes the `Cash` probe key on every other
path; lines 32-35 synthesize the residual cash weight (clamped to `0.0`
when `< 1e-4`) when the key is absent; lines 36-38 assert
`float(sum(self.holdings.values())) - 1.0 < 1e-4`.  Because `Cash` is
unhashable, both hashing sites raise, so the synthesis and the assert are
dead code — kept here behind the `hashKey` checks exactly as the source
keeps them behind the hashing that Python performs first. -/
def portfolioInit (currency : String)
    (holdings : Option (List (PKey × ℚ))) : Except PyErr (List (PKey × ℚ)) :=
  let cash := PKey.cash currency
  let h0 : Except PyErr (List (PKey × ℚ)) :=
    match holdings with
    | none => (hashKey cash).map (fun c => [(c, 1)])
    | some l =>
        if l.isEmpty then (hashKey cash).map (fun c => [(c, 1)]) else .ok l
  h0.bind (fun h0 =>
    (hashKey cash).bind (fun c =>
      let h1 :=
        if hasKey h0 c then h0
        else
          let residual := 1 - |holdingsSum h0|
          let residual := if residual < 1 / 10000 then 0 else residual
          h0 ++ [(c, residual)]
      if holdingsSum h1 - 1 < 1 / 10000 then .ok h1
      else .error (.assertionError "Holding weights should sum to one")))

/-- The heap of Python `set` objects that `OptimizationModel.constraints`
fields can reference; an index into `sets` is an object reference. -/
structure ConstraintStore where
  sets : List (List Constraint)
  deriving DecidableEq, Repr

/-- One `OptimizationModel` instance as seen by `__init__`/`add_constraint`/
`del_constraint`: an object identity and the reference stored by
`self.constraints = constraints` (line 51) — the argument object itself,
never a copy. -/
structure ModelRef where
  oid : Nat
  constraintsRef : Option Nat
  deriving DecidableEq, Repr

/-- Dereference a set object (a dangling index reads as the empty set). -/
def storeGet (s : ConstraintStore) (r : Nat) : List Constraint :=
  s.sets.getD r []

/-- The value of `self.constraints` for a model: `None`, or the current
contents of the referenced set object. -/
def constraintsView (s : ConstraintStore) (m : ModelRef) :
    Option (List Constraint) :=
  m.constraintsRef.map (storeGet s)

/-- Python `set.add`. -/
def setInsert (c : Constraint) (l : List Constraint) : List Constraint :=
  if l.contains c then l else l ++ [c]

/-- `OptimizationModel.__init__` (lines 42-51): stores the argument
reference unchanged. -/
def modelInitRef (oid : Nat) (constraintsArg : Option Nat) : ModelRef :=
  { oid := oid, constraintsRef := constraintsArg }

/-- `add_constraint` (lines 53-64): `if self.constraints is None:
self.constraints = set()` allocates a fresh set object, then
`self.constraints.add(constraint)` mutates the referenced object in place. -/
def addConstraintS (s : ConstraintStore) (m : ModelRef) (c : Constraint) :
    ModelRef × ConstraintStore :=
  match m.constraintsRef with
  | none =>
      let r := s.sets.length
      ({ m with constraintsRef := some r }, ⟨s.sets ++ [[c]]⟩)
  | some r =>
      (m, ⟨s.sets.set r (setInsert c (storeGet s r))⟩)

/-- `del_constraint` (lines 66-79): asserts the truthiness of
`self.constraints`, asserts membership, then `self.constraints.remove`
mutates the referenced object in place. -/
def delConstraintS (s : ConstraintStore) (m : ModelRef) (c : Constraint) :
    Except PyErr Unit × ConstraintStore :=
  match m.constraintsRef with
  | none => (.error (.assertionError "There are no constraints."), s)
  | some r =>
      let cur := storeGet s r
      if cur.isEmpty then
        (.error (.assertionError "There are no constraints."), s)
      else if cur.contains c then
        (.ok (), ⟨s.sets.set r (cur.erase c)⟩)
      else
        (.error (.assertionError "The constraint is not in the set of constraints"), s)

/-- Truthiness of the bound method object `self._is_positive_semidefinite`
tested at `objective_functions.py` line 67: the method is referenced, not
called, and a bound method object is always truthy in Python. -/
def boundMethodTruthy : Bool := true

/-- `CovarianceMatrix.__call__` (`objective_functions.py` lines 65-70) for a
returns frame with `nCols` columns: because line 67 tests the truthiness of
the bound method instead of calling it, the guard always takes the first
branch and returns `2 * self.returns.cov().values`. -/
def covarianceMatrixCall (nCols : Nat) (returns : Mat) : Except PyErr Mat :=
  if boundMethodTruthy then .ok (smulM 2 (covMat nCols returns))
  else .error (.valueError "The returns matrix is not positive semidefinite!")

/-- Drop entry `j` from a row (column removal for a Laplace minor). -/
def stripCol (j : Nat) (r : List ℚ) : List ℚ := r.take j ++ r.drop (j + 1)

/-- Determinant of a square matrix by Laplace expansion along the first
row. -/
def detL : Mat → ℚ
  | [] => 1
  | r :: rs =>
      ((List.range r.length).map
        (fun j => (-1 : ℚ) ^ j * r.getD j 0 * detL (rs.map (stripCol j)))).sum
termination_by m => m.length
decreasing_by simp [List.length_map]

/-- The order-`k` leading principal minor. -/
def leadingMinor (M : Mat) (k : Nat) : ℚ :=
  detL ((M.take k).map (fun r => r.take k))

/-- `M + 1e-16 * np.eye(len(M))` for a square matrix. -/
def addEpsEye (M : Mat) : Mat :=
  M.enum.map (fun p =>
    p.2.enum.map (fun q => if q.1 = p.1 then q.2 + 1 / 10 ^ 16 else q.2))

/-- Success of `np.linalg.cholesky` on a symmetric matrix: the factorization
exists with positive pivots exactly when every leading principal minor is
positive (Sylvester criterion for positive definiteness). -/
def choleskySucceeds (M : Mat) : Bool :=
  (List.range M.length).all (fun k => decide (0 < leadingMinor M (k + 1)))

/-- What `CovarianceMatrix._is_positive_semidefinite` (lines 56-63) computes
when it is actually called: an attempted Cholesky factorization of
`self.returns + 1e-16 * np.eye(len(self.returns))` — note this is applied to
the returns frame itself, which must be square for the addition to
broadcast. -/
def isPositiveSemidefiniteCheck (returns : Mat) : Bool :=
  choleskySucceeds (addEpsEye returns)

/-- Number of non-weight (auxiliary) columns of the extended variable vector
of each model class. -/
def auxVarCount (kind : ModelKind) (u : InvestmentUniverse) : Nat :=
  match kind with
  | .base => 0
  | .meanVariance => 0
  | .meanMAD => numObsReturns u
  | .meanCVaR => numObsReturns u + 1

/-- Whether the assembled constraints dictionary of a model lacks the
`"G_inequality"` key: the base class and `MeanVariance` write it only under
an active no-shortselling constraint, while `MeanMAD` and `MeanCVaR` write
it unconditionally when the constraint set is falsy (their `else` branch)
and omit it exactly when the set is truthy without `NO_SHORTSELLING`. -/
def gAbsent (m : OptModel) : Bool :=
  match m.kind with
  | .base | .meanVariance =>
      !(constraintsTruthy m.constraints && hasNoShort m.constraints)
  | .meanMAD | .meanCVaR =>
      constraintsTruthy m.constraints && !hasNoShort m.constraints

/-! Concrete data used by witnesses and counterexamples. -/

/-- A two-asset universe with two observations; the asset set happens to
iterate in column order. -/
def uTwo : InvestmentUniverse :=
  ⟨["A", "B"], [[1 / 100, 2 / 100], [3 / 100, 4 / 100]], ["A", "B"]⟩

/-- The same returns data, but the asset set iterates in the opposite order
to the returns columns. -/
def uSwap : InvestmentUniverse := ⟨["A", "B"], [[0, 0]], ["B", "A"]⟩

/-- A one-asset universe. -/
def uOne : InvestmentUniverse := ⟨["A"], [[0]], ["A"]⟩

/-- A solver oracle whose every call reports status `"optimal"`. -/
def solverOpt : Solver := fun _ => ⟨"optimal", [3 / 10, 7 / 10, 0, 0]⟩

/-- A solver oracle whose every call reports status `"unknown"`. -/
def solverUnk : Solver := fun _ => ⟨"unknown", []⟩

/-- A `MeanMAD` model with `constraints=None`. -/
def mMadNone : OptModel := { kind := .meanMAD, constraints := none }

/-- A `MeanVariance` model with the no-shortselling constraint. -/
def mMvNS : OptModel :=
  { kind := .meanVariance, constraints := some [.noShortselling] }

/-- A `MeanVariance` model with `constraints=None`. -/
def mMvNone : OptModel := { kind := .meanVariance, constraints := none }

/-- A square returns frame that fails the intended Cholesky check. -/
def returnsNonPSD : Mat := [[-1, 0], [0, -1]]

/-! Helper lemmas. -/

theorem linear_length (kind : ModelKind) (conf : ℚ) (u : InvestmentUniverse) :
    (computeObjective kind conf u).linear.length
      = numRetAssets u + auxVarCount kind u := by
  cases kind <;>
    simp [computeObjective, auxVarCount, zerosV, List.length_append,
      List.length_replicate]

theorem computeConstraintsBase_A_budget (m : OptModel) (u : InvestmentUniverse)
    (cashPct : ℚ) :
    (computeConstraintsBase m u cashPct).A_budget
      = [onesV (numRetAssets u)
          ++ zerosV ((computeObjective m.kind m.confidenceLevel u).linear.length
            - numRetAssets u)]
    ∧ (computeConstraintsBase m u cashPct).b_budget = [1 - cashPct] := by
  unfold computeConstraintsBase
  split <;> exact ⟨rfl, rfl⟩

theorem get?_zip_of_lt {α β : Type} (a : List α) (b : List β) (i : Nat)
    (ha : i < a.length) (hb : i < b.length) :
    (List.zip a b).get? i = some (a.get ⟨i, ha⟩, b.get ⟨i, hb⟩) := by
  rw [List.get?_zip_eq_some]
  constructor <;> simp [List.get?_eq_get, ha, hb]

/-! Claim theorems. -/

/-- C4: for every returns matrix with n asset columns and T observation
rows, the Variance objective is an n×n Quadratic matrix, the MAD objective
is a Linear vector of length n+T made of n zeros followed by T entries 1/T,
and the CVaR objective (with the default confidence level 0.05) is a Linear
vector of length n+T+1 made of n zeros, T entries 1/(0.05·T) and a final
entry 1. -/
theorem objective_shapes (u : InvestmentUniverse) (conf : ℚ) :
    (∃ Q, (computeObjective .meanVariance conf u).quadratic = some Q
      ∧ Q.length = numRetAssets u
      ∧ ∀ row ∈ Q, row.length = numRetAssets u)
    ∧ (computeObjective .meanMAD conf u).linear
        = zerosV (numRetAssets u)
          ++ List.replicate (numObsReturns u) ((1 : ℚ) / (numObsReturns u : ℚ))
    ∧ (computeObjective .meanMAD conf u).linear.length
        = numRetAssets u + numObsReturns u
    ∧ (computeObjective .meanCVaR defaultConfidenceLevel u).linear
        = zerosV (numRetAssets u)
          ++ List.replicate (numObsReturns u)
              ((1 : ℚ) / (defaultConfidenceLevel * (numObsReturns u : ℚ)))
          ++ [1]
    ∧ (computeObjective .meanCVaR defaultConfidenceLevel u).linear.length
        = numRetAssets u + numObsReturns u + 1 := by
  refine ⟨⟨smulM 2 (covMat (numRetAssets u) u.returnsRows), rfl, ?_, ?_⟩,
    rfl, ?_, rfl, ?_⟩
  · simp [smulM, covMat]
  · intro row hrow
    simp only [smulM, List.mem_map] at hrow
    obtain ⟨r, hr, rfl⟩ := hrow
    simp only [covMat, List.mem_map] at hr
    obtain ⟨i, _, rfl⟩ := hr
    simp
  · simp [computeObjective, zerosV]
  · simp [computeObjective, zerosV]
    omega

/-- C5: for every model and every universe, the assembled constraint
dictionary always holds the budget equality row with coefficient 1 on each
of the first n (asset-weight) columns, coefficient 0 on every auxiliary
column, and right-hand side 1 − cash_pct (cash_pct defaults to 0). -/
theorem budget_constraint_row (m : OptModel) (u : InvestmentUniverse)
    (cashPct : ℚ) :
    (computeConstraintsS m u cashPct).1.A_budget
      = [onesV (numRetAssets u) ++ zerosV (auxVarCount m.kind u)]
    ∧ (computeConstraintsS m u cashPct).1.b_budget = [1 - cashPct] := by
  obtain ⟨kind, cs, cl, cd⟩ := m
  have hbase := computeConstraintsBase_A_budget ⟨kind, cs, cl, cd⟩ u cashPct
  rw [linear_length] at hbase
  simp only [Nat.add_sub_cancel_left] at hbase
  cases kind
  case base => exact hbase
  case meanVariance =>
    simp only [computeConstraintsS, computeConstraintsDict]
    split <;> simp [auxVarCount, zerosV, hbase.1, hbase.2]
  case meanMAD =>
    simp only [computeConstraintsS, computeConstraintsDict]
    split
    · split <;> simp [hbase.1, hbase.2]
    · simp [hbase.1, hbase.2]
  case meanCVaR =>
    simp only [computeConstraintsS, computeConstraintsDict]
    split
    · split <;> simp [hbase.1, hbase.2]
    · simp [hbase.1, hbase.2]

theorem compute_reduce_keyError (m : OptModel) (u : InvestmentUniverse)
    (cashPct : ℚ) (solver : Solver)
    (hG : (computeConstraintsS m u cashPct).1.G_inequality = none) :
    (computeOptimalPortfolioS m u cashPct solver).1
      = .error (.keyError "G_inequality") := by
  unfold computeOptimalPortfolioS
  simp only [hG]

theorem compute_reduce_checked (m : OptModel) (u : InvestmentUniverse)
    (cashPct : ℚ) (solver : Solver) (G : Mat) (h : List ℚ)
    (hG : (computeConstraintsS m u cashPct).1.G_inequality = some G)
    (hh : (computeConstraintsS m u cashPct).1.h_inequality = some h) :
    (computeOptimalPortfolioS m u cashPct solver).1 =
      if (solver (checkedCallArgs m u cashPct G h)).status = "optimal" then
        optimalPortfolioCall (modelClassName m.kind ++ " Portfolio")
          (buildHoldings u (solver (checkedCallArgs m u cashPct G h)).x)
          u.returnsRows
      else .error (.assertionError "The status of the solution is not optimal!") := by
  unfold computeOptimalPortfolioS
  simp only [hG, hh]

theorem gAbsent_iff (m : OptModel) (u : InvestmentUniverse) (cashPct : ℚ) :
    (computeConstraintsS m u cashPct).1.G_inequality = none
      ↔ gAbsent m = true := by
  obtain ⟨kind, cs, cl, cd⟩ := m
  cases kind <;>
    simp only [computeConstraintsS, computeConstraintsDict, computeConstraintsBase,
      gAbsent] <;>
    cases hct : constraintsTruthy cs <;>
    cases hns : hasNoShort cs <;>
    simp [hct, hns]

theorem hAbsent_iff (m : OptModel) (u : InvestmentUniverse) (cashPct : ℚ) :
    (computeConstraintsS m u cashPct).1.h_inequality = none
      ↔ gAbsent m = true := by
  obtain ⟨kind, cs, cl, cd⟩ := m
  cases kind <;>
    simp only [computeConstraintsS, computeConstraintsDict, computeConstraintsBase,
      gAbsent] <;>
    cases hct : constraintsTruthy cs <;>
    cases hns : hasNoShort cs <;>
    simp [hct, hns]

theorem compute_always_errors_exists (m : OptModel) (u : InvestmentUniverse)
    (cashPct : ℚ) (solver : Solver) :
    ∃ e, (computeOptimalPortfolioS m u cashPct solver).1 = .error e := by
  cases hG : (computeConstraintsS m u cashPct).1.G_inequality with
  | none => exact ⟨_, compute_reduce_keyError m u cashPct solver hG⟩
  | some G =>
      have hhne : (computeConstraintsS m u cashPct).1.h_inequality ≠ none := by
        intro hcontra
        have hnone := (gAbsent_iff m u cashPct).mpr ((hAbsent_iff m u cashPct).mp hcontra)
        rw [hG] at hnone
        exact Option.noConfusion hnone
      obtain ⟨h, hh⟩ := Option.ne_none_iff_exists'.mp hhne
      rw [compute_reduce_checked m u cashPct solver G h hG hh]
      by_cases hst : (solver (checkedCallArgs m u cashPct G h)).status = "optimal"
      · rw [if_pos hst]
        exact ⟨_, rfl⟩
      · rw [if_neg hst]
        exact ⟨_, rfl⟩

theorem stateAfter_eq (m : OptModel) (u : InvestmentUniverse) (cashPct : ℚ) :
    constraintsStateAfter m u cashPct
      = { m with
          constraintsDict := (constraintsStateAfter m u cashPct).constraintsDict } := by
  obtain ⟨kind, cs, cl, cd⟩ := m
  cases kind <;>
    first
      | rfl
      | (simp only [constraintsStateAfter]
         (repeat' split) <;> rfl)

theorem compute_fst_ignores_dict (m : OptModel) (d : Option ConstraintsDict)
    (u : InvestmentUniverse) (cashPct : ℚ) (solver : Solver) :
    (computeOptimalPortfolioS { m with constraintsDict := d } u cashPct solver).1
      = (computeOptimalPortfolioS m u cashPct solver).1 := by
  obtain ⟨kind, cs, cl, cd⟩ := m
  rfl

/-- C3 (amended): `compute_optimal_portfolio` never returns normally.  The
`"G_inequality"` lookup of the unconditional second solver invocation raises
`KeyError` exactly when the key is absent, which happens for the base class
and `MeanVariance` whenever no-shortselling is inactive, but for `MeanMAD`
and `MeanCVaR` only when the constraint set is truthy without
`NO_SHORTSELLING` (their falsy-branch writes the key unconditionally); and
on every path where the solver returns status `"optimal"`, constructing the
result raises `TypeError` because of the unexpected keyword argument
`optimization_model_name`. -/
theorem compute_optimal_portfolio_always_errors (m : OptModel)
    (u : InvestmentUniverse) (cashPct : ℚ) (solver : Solver) :
    (∃ e, (computeOptimalPortfolioS m u cashPct solver).1 = .error e)
    ∧ ((computeConstraintsS m u cashPct).1.G_inequality = none
        ↔ gAbsent m = true)
    ∧ ((computeConstraintsS m u cashPct).1.G_inequality = none →
        (computeOptimalPortfolioS m u cashPct solver).1
          = .error (.keyError "G_inequality"))
    ∧ (∀ G h, (computeConstraintsS m u cashPct).1.G_inequality = some G →
        (computeConstraintsS m u cashPct).1.h_inequality = some h →
        (solver (checkedCallArgs m u cashPct G h)).status = "optimal" →
        (computeOptimalPortfolioS m u cashPct solver).1
          = .error (.typeError "unexpected keyword argument optimization_model_name")) := by
  refine ⟨compute_always_errors_exists m u cashPct solver,
    gAbsent_iff m u cashPct,
    fun hG => compute_reduce_keyError m u cashPct solver hG,
    fun G h hG hh hst => ?_⟩
  rw [compute_reduce_checked m u cashPct solver G h hG hh, if_pos hst]
  rfl

/-- C3 witness: a `MeanVariance` model with `constraints=None` hits the
`KeyError`, and a `MeanMAD` model with `constraints=None` reaches the
constructor `TypeError` under an always-optimal solver. -/
theorem compute_optimal_portfolio_always_errors_witness :
    (computeOptimalPortfolioS mMvNone uTwo 0 solverOpt).1
      = .error (.keyError "G_inequality")
    ∧ (computeOptimalPortfolioS mMadNone uTwo 0 solverOpt).1
      = .error (.typeError "unexpected keyword argument optimization_model_name") :=
  ⟨(compute_optimal_portfolio_always_errors mMvNone uTwo 0 solverOpt).2.2.1 rfl,
   (compute_optimal_portfolio_always_errors mMadNone uTwo 0 solverOpt).2.2.2
     _ _ rfl rfl rfl⟩

/-- C3 counterexample: `MeanMAD` with `constraints=None` has
`NO_SHORTSELLING` absent, yet the run does not raise `KeyError` on
`"G_inequality"` — the MAD constraint builder wrote the key, the solver
returned `"optimal"`, and the failure is the constructor `TypeError`
instead. -/
theorem mad_without_constraints_no_keyerror :
    mMadNone.constraints = none
    ∧ (computeOptimalPortfolioS mMadNone uTwo 0 solverOpt).1
      = .error (.typeError "unexpected keyword argument optimization_model_name")
    ∧ (computeOptimalPortfolioS mMadNone uTwo 0 solverOpt).1
      ≠ .error (.keyError "G_inequality") := by
  refine ⟨rfl, rfl, ?_⟩
  intro hcontra
  rw [show (computeOptimalPortfolioS mMadNone uTwo 0 solverOpt).1
      = .error (.typeError "unexpected keyword argument optimization_model_name")
    from rfl] at hcontra
  injection hcontra with hcontra
  exact absurd hcontra (by decide)

/-- C1 (amended): the status of the checked (second) solver invocation is
gated by a bare assert: any status other than `"optimal"` surfaces an
`AssertionError` — not an `InfeasibleOrUnboundedError`, a class that does
not exist in the code — and exactly the status `"optimal"` lets the
computation continue to weight extraction (`buildHoldings`) and the result
construction.  The first solver invocation, made when no-shortselling is
inactive, has its status discarded unchecked. -/
theorem solver_status_check_assertion (m : OptModel) (u : InvestmentUniverse)
    (cashPct : ℚ) (solver : Solver) (G : Mat) (h : List ℚ)
    (hG : (computeConstraintsS m u cashPct).1.G_inequality = some G)
    (hh : (computeConstraintsS m u cashPct).1.h_inequality = some h) :
    ((solver (checkedCallArgs m u cashPct G h)).status ≠ "optimal" →
      (computeOptimalPortfolioS m u cashPct solver).1
        = .error (.assertionError "The status of the solution is not optimal!"))
    ∧ ((solver (checkedCallArgs m u cashPct G h)).status = "optimal" →
      (computeOptimalPortfolioS m u cashPct solver).1
        = optimalPortfolioCall (modelClassName m.kind ++ " Portfolio")
            (buildHoldings u (solver (checkedCallArgs m u cashPct G h)).x)
            u.returnsRows) := by
  rw [compute_reduce_checked m u cashPct solver G h hG hh]
  constructor
  · intro hst
    rw [if_neg hst]
  · intro hst
    rw [if_pos hst]

/-- C1 witness: a `MeanVariance` model with no-shortselling under a solver
that reports status `"unknown"` fails with the assert message. -/
theorem solver_status_check_assertion_witness :
    (computeOptimalPortfolioS mMvNS uTwo 0 solverUnk).1
      = .error (.assertionError "The status of the solution is not optimal!") :=
  (solver_status_check_assertion mMvNS uTwo 0 solverUnk _ _ rfl rfl).1
    (by decide)

/-- C1 counterexample: at a concrete non-optimal run the surfaced failure is
an `AssertionError`, not an `InfeasibleOrUnboundedError` — the code contains
no such class. -/
theorem solver_nonoptimal_assertion_not_infeasible :
    (computeOptimalPortfolioS mMvNS uTwo 0 solverUnk).1
      = .error (.assertionError "The status of the solution is not optimal!")
    ∧ (computeOptimalPortfolioS mMvNS uTwo 0 solverUnk).1
      ≠ .error .infeasibleOrUnboundedError := by
  refine ⟨rfl, ?_⟩
  intro hcontra
  rw [show (computeOptimalPortfolioS mMvNS uTwo 0 solverUnk).1
      = .error (.assertionError "The status of the solution is not optimal!")
    from rfl] at hcontra
  injection hcontra with hcontra
  exact absurd hcontra (by decide)

/-- C6 (amended): the weight correction applied after slicing the solution
vector snaps exactly the strictly positive weights below 1e-4 to zero; every
other weight — negative weights of any magnitude included — is kept
unchanged, and the holdings values are exactly the sliced weights mapped
through this single correction. -/
theorem weight_snapping_positive_only :
    (∀ w : ℚ, 0 < w → w < 1 / 10000 → snapWeight w = 0)
    ∧ (∀ w : ℚ, ¬ (0 < w ∧ w < 1 / 10000) → snapWeight w = w)
    ∧ ∀ (u : InvestmentUniverse) (x : List ℚ),
        numRetAssets u ≤ u.assetsIter.length →
        (buildHoldings u x).map Prod.snd
          = (x.take (numRetAssets u)).map snapWeight := by
  refine ⟨fun w h1 h2 => if_pos ⟨h1, h2⟩, fun w hw => if_neg hw,
    fun u x hle => ?_⟩
  unfold buildHoldings
  rw [List.map_map]
  have hlen : (x.take (numRetAssets u)).length ≤ u.assetsIter.length :=
    le_trans (List.length_take_le _ _) hle
  have hcomp : (Prod.snd ∘ fun p : String × ℚ => (p.1, snapWeight p.2))
      = snapWeight ∘ Prod.snd := rfl
  rw [hcomp, ← List.map_map, List.map_snd_zip _ _ hlen]

/-- C6 witness: a positive weight below 1e-4 is snapped, a large weight is
kept, and the holdings of a concrete solve are the snapped slice. -/
theorem weight_snapping_positive_only_witness :
    snapWeight ((1 : ℚ) / 20000) = 0
    ∧ snapWeight ((1 : ℚ) / 2) = 1 / 2
    ∧ (buildHoldings uTwo [1 / 20000, 1 / 2]).map Prod.snd
      = ([(1 : ℚ) / 20000, 1 / 2].take (numRetAssets uTwo)).map snapWeight :=
  ⟨weight_snapping_positive_only.1 _ (by norm_num) (by norm_num),
   weight_snapping_positive_only.2.1 _ (by norm_num),
   weight_snapping_positive_only.2.2 uTwo _ (by decide)⟩

/-- C6 counterexample: a weight of −1e-5 has 0 < |w| < 1e-4 but is not
snapped to zero — the code tests `weight > 0`, not the magnitude. -/
theorem negative_small_weight_not_snapped :
    0 < |(-(1 : ℚ) / 100000)| ∧ |(-(1 : ℚ) / 100000)| < 1 / 10000
    ∧ snapWeight (-(1 : ℚ) / 100000) = -(1 : ℚ) / 100000
    ∧ buildHoldings uOne [-(1 : ℚ) / 100000] = [("A", -(1 : ℚ) / 100000)]
    ∧ (-(1 : ℚ) / 100000) ≠ 0 := by
  have habs : |(-(1 : ℚ) / 100000)| = 1 / 100000 := by
    rw [abs_of_neg (by norm_num)]
    norm_num
  refine ⟨by rw [habs]; norm_num, by rw [habs]; norm_num,
    by norm_num [snapWeight], ?_, by norm_num⟩
  norm_num [buildHoldings, uOne, numRetAssets, snapWeight]

/-- C7 (amended): the holdings pair the sliced weights with the asset set in
its own iteration order; when that order agrees with the returns column
order, the i-th column ticker receives the i-th (snapped) weight. -/
theorem holdings_match_columns_when_iteration_agrees
    (u : InvestmentUniverse) (x : List ℚ) (i : Nat)
    (hIter : u.assetsIter = u.retColumns)
    (h1 : i < numRetAssets u) (h2 : i < x.length)
    (hb : i < (buildHoldings u x).length) :
    (buildHoldings u x).get ⟨i, hb⟩
      = (u.retColumns.get ⟨i, h1⟩, snapWeight (x.get ⟨i, h2⟩)) := by
  obtain ⟨cols, rows, iter⟩ := u
  simp only at hIter
  subst hIter
  simp only [buildHoldings, List.get_eq_getElem, List.getElem_map,
    List.getElem_zip, List.getElem_take]

/-- C7 witness: on a universe whose asset-set iteration equals the column
order, column 0 receives weight 0. -/
theorem holdings_match_columns_witness :
    (buildHoldings uTwo [3 / 10, 7 / 10]).get ⟨0, by decide⟩
      = (uTwo.retColumns.get ⟨0, by decide⟩, snapWeight ((3 : ℚ) / 10)) := by
  have h := holdings_match_columns_when_iteration_agrees uTwo
    [3 / 10, 7 / 10] 0 rfl (by decide) (by decide) (by decide)
  simpa using h

/-- C7 counterexample: `investment_universe.assets` is a Python set; when
its iteration order is ["B", "A"] while the returns columns are ["A", "B"],
the holdings pair ticker "B" with the first weight, so the 0-th returns
column ticker "A" receives the second weight 7/10, not the 0-th weight
3/10. -/
theorem holdings_follow_set_iteration_order :
    uSwap.retColumns = ["A", "B"]
    ∧ buildHoldings uSwap [3 / 10, 7 / 10] = [("B", 3 / 10), ("A", 7 / 10)]
    ∧ ((3 : ℚ) / 10) ≠ 7 / 10 := by
  refine ⟨rfl, ?_, by norm_num⟩
  norm_num [buildHoldings, uSwap, numRetAssets, snapWeight]

/-- C9: `solve()` is idempotent: re-solving the problem state left behind by
a first `solve()` gives the same result — the only model-state mutation of
the call (the `constraints_dict` attribute written by `MeanMAD`) is never
read, and the result depends only on the model configuration and the
universe, both unchanged. -/
theorem solve_twice_same_result (p : OptimizationProblemPy) (solver : Solver) :
    (solveS (solveS p solver).2 solver).1 = (solveS p solver).1 := by
  obtain ⟨m, u⟩ := p
  show (computeOptimalPortfolioS (constraintsStateAfter m u 0) u 0 solver).1
    = (computeOptimalPortfolioS m u 0 solver).1
  rw [stateAfter_eq m u 0]
  exact compute_fst_ignores_dict m _ u 0 solver

/-- C2 (code bug): the positive-semidefiniteness gate never fires.  For
every returns frame, `CovarianceMatrix.__call__` returns `2 * cov` and never
raises, because line 67 tests the truthiness of the bound method
`_is_positive_semidefinite` instead of calling it; the concrete square frame
`[[-1, 0], [0, -1]]` fails the intended Cholesky check, yet the call still
succeeds; and `MeanVariance._compute_objective` performs no check at all,
returning Q = 2·Cov with a zero linear term for every input. -/
theorem variance_objective_psd_gate_never_fires :
    (∀ (nCols : Nat) (R : Mat),
      covarianceMatrixCall nCols R = .ok (smulM 2 (covMat nCols R)))
    ∧ isPositiveSemidefiniteCheck returnsNonPSD = false
    ∧ covarianceMatrixCall 2 returnsNonPSD = .ok [[1, -1], [-1, 1]]
    ∧ (∀ (conf : ℚ) (u : InvestmentUniverse),
        computeObjective .meanVariance conf u
          = { quadratic := some (smulM 2 (covMat (numRetAssets u) u.returnsRows)),
              linear := zerosV (numRetAssets u) }) := by
  refine ⟨fun nCols R => rfl, ?_, ?_, fun conf u => rfl⟩
  · norm_num [isPositiveSemidefiniteCheck, choleskySucceeds, addEpsEye,
      leadingMinor, returnsNonPSD, detL, stripCol, List.range_succ, List.enum,
      List.enumFrom]
  · norm_num [covarianceMatrixCall, boundMethodTruthy, smulM, covMat, covEntry,
      colMean, colV, returnsNonPSD, List.range_succ]

/-- C8 (code bug): `Cash` is a non-frozen dataclass and therefore
unhashable, so `Portfolio.__init__` raises `TypeError` on every
construction path — a falsy holdings argument hashes the `Cash` key of the
default all-cash dictionary (line 28), and every explicit holdings map
hashes the `Cash` probe of the membership test (line 31) — and the cash
synthesis (lines 32-35) and the sum assert (lines 36-38) are unreachable:
no `Portfolio` is ever constructed, and the claimed 1e-4 sum invariant,
eager sum-based rejection and residual cash synthesis never run. -/
theorem portfolio_init_always_unhashable_typeerror :
    (∀ (currency : String) (holdings : Option (List (PKey × ℚ))),
      portfolioInit currency holdings
        = .error (.typeError "unhashable type: Cash"))
    ∧ (∀ currency, isHashable (PKey.cash currency) = false)
    ∧ portfolioInit "EUR" none = .error (.typeError "unhashable type: Cash")
    ∧ portfolioInit "EUR" (some [(PKey.stock "AAPL" 0, 3 / 10),
        (PKey.stock "MSFT" 1, 3 / 10)])
      = .error (.typeError "unhashable type: Cash") := by
  refine ⟨?_, fun currency => rfl, rfl, rfl⟩
  intro currency holdings
  cases holdings with
  | none => rfl
  | some l =>
      cases l with
      | nil => rfl
      | cons a t => rfl

/-- C10 (amended): two models whose constraint containers are not aliased
are independent — `add_constraint`/`del_constraint` on one leaves the
other's view unchanged — and a model constructed with `constraints=None`
allocates its own fresh set on the first `add_constraint`; but `__init__`
stores the argument set without copying, so aliasing is possible. -/
theorem constraint_container_independence :
    (∀ (s : ConstraintStore) (m1 m2 : ModelRef) (c : Constraint) (r2 : Nat),
      m1.constraintsRef = none → m2.constraintsRef = some r2 →
      r2 < s.sets.length →
      constraintsView (addConstraintS s m1 c).2 m2 = constraintsView s m2)
    ∧ (∀ (s : ConstraintStore) (m1 m2 : ModelRef) (c : Constraint) (r1 : Nat),
      m1.constraintsRef = some r1 → m2.constraintsRef ≠ some r1 →
      constraintsView (addConstraintS s m1 c).2 m2 = constraintsView s m2)
    ∧ (∀ (s : ConstraintStore) (m1 : ModelRef) (c : Constraint),
      m1.constraintsRef = none →
      constraintsView (addConstraintS s m1 c).2 (addConstraintS s m1 c).1
        = some [c])
    ∧ (∀ (s : ConstraintStore) (m1 : ModelRef) (c : Constraint),
      m1.constraintsRef = none → (delConstraintS s m1 c).2 = s)
    ∧ (∀ (s : ConstraintStore) (m1 m2 : ModelRef) (c : Constraint) (r1 : Nat),
      m1.constraintsRef = some r1 → m2.constraintsRef ≠ some r1 →
      constraintsView (delConstraintS s m1 c).2 m2 = constraintsView s m2) := by
  refine ⟨?_, ?_, ?_, ?_, ?_⟩
  · intro s m1 m2 c r2 h1 h2 hlt
    simp only [addConstraintS, h1, constraintsView, h2, Option.map_some', storeGet]
    rw [List.getD_append _ _ _ _ hlt]
  · intro s m1 m2 c r1 h1 h2
    cases hm2 : m2.constraintsRef with
    | none => simp [addConstraintS, h1, constraintsView, hm2]
    | some k =>
        have hk : r1 ≠ k := fun hcontra => h2 (by rw [hm2, hcontra])
        simp [addConstraintS, h1, constraintsView, hm2, storeGet,
          List.getD_eq_getD_get?, List.get?_eq_getElem?, List.getElem?_set_ne hk]
  · intro s m1 c h1
    simp [addConstraintS, h1, constraintsView, storeGet, List.getD_eq_getD_get?,
      List.get?_eq_getElem?, List.getElem?_concat_length]
  · intro s m1 c h1
    simp [delConstraintS, h1]
  · intro s m1 m2 c r1 h1 h2
    cases hm2 : m2.constraintsRef with
    | none => simp [delConstraintS, h1, constraintsView, hm2]
    | some k =>
        have hk : r1 ≠ k := fun hcontra => h2 (by rw [hm2, hcontra])
        simp only [delConstraintS, h1]
        split
        · rfl
        · split
          · simp [constraintsView, hm2, storeGet, List.getD_eq_getD_get?,
              List.get?_eq_getElem?, List.getElem?_set_ne hk]
          · rfl

/-- C10 witness: non-aliased additions, deletions and the fresh-set
allocation at concrete stores. -/
theorem constraint_container_independence_witness :
    constraintsView
        (addConstraintS ⟨[[], [.maxInstrWeight]]⟩ ⟨1, none⟩ .noShortselling).2
        ⟨2, some 1⟩
      = constraintsView ⟨[[], [.maxInstrWeight]]⟩ ⟨2, some 1⟩
    ∧ constraintsView
        (addConstraintS ⟨[[], [.maxInstrWeight]]⟩ ⟨1, some 0⟩ .noShortselling).2
        ⟨2, some 1⟩
      = constraintsView ⟨[[], [.maxInstrWeight]]⟩ ⟨2, some 1⟩
    ∧ constraintsView (addConstraintS ⟨[[]]⟩ ⟨3, none⟩ .noShortselling).2
        (addConstraintS ⟨[[]]⟩ ⟨3, none⟩ .noShortselling).1
      = some [.noShortselling]
    ∧ (delConstraintS ⟨[[.noShortselling]]⟩ ⟨4, none⟩ .noShortselling).2
      = ⟨[[.noShortselling]]⟩
    ∧ constraintsView
        (delConstraintS ⟨[[.noShortselling], []]⟩ ⟨5, some 0⟩ .noShortselling).2
        ⟨6, some 1⟩
      = constraintsView ⟨[[.noShortselling], []]⟩ ⟨6, some 1⟩ :=
  ⟨constraint_container_independence.1 _ _ _ _ 1 rfl rfl (by decide),
   constraint_container_independence.2.1 _ _ _ _ 0 rfl (by decide),
   constraint_container_independence.2.2.1 _ _ _ rfl,
   constraint_container_independence.2.2.2.1 _ _ _ rfl,
   constraint_container_independence.2.2.2.2 _ _ _ _ 0 rfl (by decide)⟩

/-- C10 counterexample: two distinct model instances constructed with the
same set object share it — `add_constraint` on one changes the view of the
other. -/
theorem aliased_constraint_sets_shared :
    (modelInitRef 1 (some 0)).oid ≠ (modelInitRef 2 (some 0)).oid
    ∧ constraintsView ⟨[[]]⟩ (modelInitRef 2 (some 0)) = some []
    ∧ constraintsView
        (addConstraintS ⟨[[]]⟩ (modelInitRef 1 (some 0)) .noShortselling).2
        (modelInitRef 2 (some 0))
      = some [.noShortselling] := by
  exact ⟨by decide, by decide, by decide⟩

end QuantFin
